import Mathlib

/-!
Shallow embedding of src/app_prediccion_incendios.py, the Streamlit app
"Sistema de Predicción de Riesgo de Incendios Forestales" (Córdoba).

The classifier loaded from modelo_rf_calibrado_completo.pkl is an opaque
external artifact; it is modelled as a structure holding a `predict`
function and an optional `predict_proba` function (an `Option` models the
`hasattr(model, "predict_proba")` duck-typed capability check on line 239).
Slider values are Python ints (modelled as `Int`); the feature arrays the
code builds with `np.array` hold Python floats, modelled as exact rationals
(`Rat`), the standard shallow embedding of the real-valued computation.
`round(prob, 4)` is modelled as rounding to the nearest multiple of 1/10000
(tie behaviour is irrelevant to every bound proved here).
-/

namespace Incendios

/-- A feature vector as the code builds it: `np.array([[a, b, c]])`,
one row of three floats, modelled as a triple of rationals. -/
def Features : Type := ℚ × ℚ × ℚ

/-- The opaque classifier from `joblib.load("modelo_rf_calibrado_completo.pkl")`:
`predict` always exists; `predict_proba` is an optional capability
(`hasattr(model, "predict_proba")`).  `predictProba` returns the
positive-class column `[0][1]` directly. -/
structure Classifier where
  predict : Features → ℤ
  predictProba : Option (Features → ℚ)

/-- Line 239: `prob = model.predict_proba(X_input)[0][1] if hasattr(model,
"predict_proba") else 0.5`. -/
def probOf (m : Classifier) (x : Features) : ℚ :=
  match m.predictProba with
  | some f => f x
  | none => 1/2

/-- UMBRALES_REFERENCIA (line 43): `humedad_critica`. -/
def humedad_critica : ℤ := 40

/-- UMBRALES_REFERENCIA (line 43): `temp_alta`. -/
def temp_alta : ℤ := 30

/-- UMBRALES_REFERENCIA (line 43): `viento_fuerte`. -/
def viento_fuerte : ℤ := 25

/-- The three qualitative alerts appended on lines 179-184. -/
inductive Alert where
  | humedadCritica
  | tempAlta
  | vientoFuerte
deriving DecidableEq, Repr

/-- Lines 178-184: `alerts = []`, then three independent `if` statements
appending, in order: humidity below 40, temperature above 30, wind above
25.  All matching alerts are collected, not just the first. -/
def computeAlerts (rh wspd temp : ℤ) : List Alert :=
  (if rh < humedad_critica then [Alert.humedadCritica] else []) ++
  (if temp > temp_alta then [Alert.tempAlta] else []) ++
  (if wspd > viento_fuerte then [Alert.vientoFuerte] else [])

/-- Line 314 (and the display branch on lines 245-255):
`'MODERADO/ALTO' if pred == 1 else 'BAJO'`. -/
def labelOf (pred : ℤ) : String :=
  if pred = 1 then "MODERADO/ALTO" else "BAJO"

/-- Line 315: `round(prob, 4)` — the probability rounded to 4 decimal
places before it is stored in the history entry. -/
def round4 (q : ℚ) : ℚ := (round (q * 10000) : ℤ) / 10000

/-- A wall-clock timestamp as `datetime.now()` provides it, with the six
fields that `strftime("%Y-%m-%d %H:%M:%S")` renders. -/
structure Timestamp where
  year : ℕ
  month : ℕ
  day : ℕ
  hour : ℕ
  minute : ℕ
  second : ℕ
deriving DecidableEq, Repr

/-- One history entry, the dict appended on lines 309-317.  Field names and
their order follow the dict keys: Fecha, Humedad, Viento, Temperatura,
Predicción, Probabilidad, Alertas. -/
structure Entry where
  Fecha : Timestamp
  Humedad : ℤ
  Viento : ℤ
  Temperatura : ℤ
  Prediccion : String
  Probabilidad : ℚ
  Alertas : ℕ
deriving DecidableEq, Repr

/-- What one click of the predict button (lines 234-317) computes: the raw
model output, the probability (with the 0.5 fallback), the history entry
built from them, and the list of feature arrays constructed and passed to
the classifier during the interaction (the single `X_input` of line 237,
used for both `predict` and `predict_proba`).  There is no validation of
the slider values anywhere in the handler: the tuple is passed to the model
exactly as given. -/
structure PredictOutcome where
  pred : ℤ
  prob : ℚ
  entry : Entry
  invoked : List Features

/-- Lines 234-317, the predict-button handler: build
`X_input = np.array([[rh, wspd, temp]])`, call `model.predict` and the
probability query, and assemble the history dict.  `now` stands for
`datetime.now()`. -/
def runPredict (m : Classifier) (now : Timestamp) (rh wspd temp : ℤ) :
    PredictOutcome :=
  let X_input : Features := ((rh : ℚ), (wspd : ℚ), (temp : ℚ))
  let pred := m.predict X_input
  let prob := probOf m X_input
  { pred := pred
    prob := prob
    invoked := [X_input]
    entry :=
      { Fecha := now
        Humedad := rh
        Viento := wspd
        Temperatura := temp
        Prediccion := labelOf pred
        Probabilidad := round4 prob
        Alertas := (computeAlerts rh wspd temp).length } }

/-- The session state that the handlers mutate: `st.session_state.historial`,
a Python list of entry dicts. -/
structure AppState where
  historial : List Entry
deriving DecidableEq

/-- Line 309: `st.session_state.historial.append(...)` — Python list append
adds at the end. -/
def appendEntry (log : List Entry) (e : Entry) : List Entry := log ++ [e]

/-- Line 477: `st.session_state.historial = []` — the Limpiar Historial
button replaces the history with the empty list. -/
def clearHistorial : List Entry := []

/-- The aggregate metrics of the Historial tab (lines 423-426):
`len(df_hist)`, `(df_hist['Predicción'] == 'MODERADO/ALTO').sum()`,
`(df_hist['Predicción'] == 'BAJO').sum()`, and
`df_hist['Probabilidad'].mean()` — a plain arithmetic mean over the
Probabilidad column. -/
structure Summary where
  count : ℕ
  count_high : ℕ
  count_low : ℕ
  mean_probability : ℚ

/-- Lines 423-426, computed over the current history. -/
def summary (log : List Entry) : Summary :=
  { count := log.length
    count_high := (log.filter (fun e => e.Prediccion = "MODERADO/ALTO")).length
    count_low := (log.filter (fun e => e.Prediccion = "BAJO")).length
    mean_probability := (log.map Entry.Probabilidad).sum / (log.length : ℚ) }

/-- `np.linspace a b n`: n evenly spaced points from a to b inclusive,
point i being `a + (b - a) * i / (n - 1)`. -/
def linspace (a b : ℚ) (n : ℕ) : List ℚ :=
  (List.range n).map (fun (i : ℕ) => a + (b - a) * (i : ℚ) / ((n : ℚ) - 1))

/-- Lines 332-338: the feature arrays built inside the 1-D humidity
sensitivity loop, `X_test = np.array([[h, wspd, temp]])` for each h in
`np.linspace(20, 100, 50)`; wind and temperature are held at the current
slider values. -/
def sweep1dCalls (wspd temp : ℚ) : List Features :=
  (linspace 20 100 50).map (fun h => (h, wspd, temp))

/-- Lines 332-338: the probabilities collected by the 1-D humidity sweep,
one `probOf` query per grid point. -/
def sweep1d (m : Classifier) (wspd temp : ℚ) : List ℚ :=
  (sweep1dCalls wspd temp).map (fun x => probOf m x)

/-- Lines 371-380: the feature arrays built inside the 2-D heatmap loop,
`X_test = np.array([[h, wspd, t]])` for t in `np.linspace(10, 40, 20)` and
h in `np.linspace(20, 90, 20)`; wind is held at the slider value. -/
def sweep2dCalls (wspd : ℚ) : List (List Features) :=
  (linspace 10 40 20).map (fun t => (linspace 20 90 20).map (fun h => (h, wspd, t)))

/-- Lines 371-380: `risk_matrix`, the probability at every cell of the
temperature × humidity grid. -/
def sweep2d (m : Classifier) (wspd : ℚ) : List (List ℚ) :=
  (sweep2dCalls wspd).map (fun row => row.map (fun x => probOf m x))

/-- The whole Análisis tab (lines 323-409) as a state transformer: it
computes the two sweeps and the session history is not read or written
anywhere in it. -/
def runAnalysisTab (m : Classifier) (wspd temp : ℚ) (s : AppState) :
    (List ℚ × List (List ℚ)) × AppState :=
  ((sweep1d m wspd temp, sweep2d m wspd), s)

/-- The decimal digit characters used to render numeric CSV fields. -/
def digitChar (d : ℕ) : Char :=
  if d = 0 then '0' else if d = 1 then '1' else if d = 2 then '2'
  else if d = 3 then '3' else if d = 4 then '4' else if d = 5 then '5'
  else if d = 6 then '6' else if d = 7 then '7' else if d = 8 then '8'
  else if d = 9 then '9' else '*'

/-- Fuelled digit extraction (most significant digit first); the fuel is
structural so that concrete values reduce in the kernel. -/
def natCharsGo : ℕ → ℕ → List Char → List Char
  | 0, _, acc => acc
  | fuel + 1, n, acc =>
    if n = 0 then acc else natCharsGo fuel (n / 10) (digitChar (n % 10) :: acc)

/-- The decimal rendering of a natural number. -/
def natChars (n : ℕ) : List Char :=
  if n = 0 then ['0'] else natCharsGo (n + 1) n []

/-- Left-pad a rendered number with zeros to width `w` (strftime's
`%m`, `%d`, ... field padding and the 4 fractional digits of the
probability). -/
def padZeros (w : ℕ) (s : List Char) : List Char :=
  List.replicate (w - s.length) '0' ++ s

/-- `datetime.now().strftime("%Y-%m-%d %H:%M:%S")` (line 310). -/
def renderTimestamp (ts : Timestamp) : List Char :=
  padZeros 4 (natChars ts.year) ++ ['-'] ++ padZeros 2 (natChars ts.month) ++
  ['-'] ++ padZeros 2 (natChars ts.day) ++ [' '] ++ padZeros 2 (natChars ts.hour) ++
  [':'] ++ padZeros 2 (natChars ts.minute) ++ [':'] ++ padZeros 2 (natChars ts.second)

/-- Decimal rendering of a Python int. -/
def renderInt (z : ℤ) : List Char :=
  (if z < 0 then ['-'] else []) ++ natChars z.natAbs

/-- The stored probability (a multiple of 1/10000 after `round(prob, 4)`)
rendered as a fixed-precision decimal with 4 fractional digits — the
declared precision of the Probabilidad column. -/
def renderProb (q : ℚ) : List Char :=
  (if round (q * 10000) < 0 then ['-'] else []) ++
  natChars ((round (q * 10000) : ℤ).natAbs / 10000) ++
  ['.'] ++ padZeros 4 (natChars ((round (q * 10000) : ℤ).natAbs % 10000))

/-- One CSV data row: the seven fields of a history entry, in the dict-key
order of lines 309-317. -/
def renderRow (e : Entry) : List (List Char) :=
  [renderTimestamp e.Fecha, renderInt e.Humedad, renderInt e.Viento,
   renderInt e.Temperatura, e.Prediccion.toList, renderProb e.Probabilidad,
   natChars e.Alertas]

/-- The CSV header row `df_hist.to_csv(index=False)` writes: the DataFrame
columns, i.e. the dict keys of lines 309-317 in insertion order. -/
def headerFields : List (List Char) :=
  [String.toList "Fecha", String.toList "Humedad", String.toList "Viento",
   String.toList "Temperatura", String.toList "Predicción",
   String.toList "Probabilidad", String.toList "Alertas"]

/-- Line 467: `df_hist.to_csv(index=False)` — header row then one row per
entry, fields comma-separated, rows newline-separated. -/
def exportCSV (log : List Entry) : List Char :=
  List.intercalate ['\n']
    ((headerFields :: log.map renderRow).map (fun r => List.intercalate [','] r))

/-- Parsing the produced delimited table back: split into lines, split each
line into comma-separated fields. -/
def parseCSV (s : List Char) : List (List (List Char)) :=
  (s.splitOn '\n').map (fun line => line.splitOn ',')

/-- A character that can sit inside an unquoted CSV field: neither the
field separator nor the row separator. -/
def charOK (c : Char) : Prop := c ≠ ',' ∧ c ≠ '\n'

/-- A classifier without the `predict_proba` capability (the
`hasattr` check on line 239 is false): a test instantiation of the opaque
artifact. -/
def mNoProba : Classifier :=
  { predict := fun _ => 1, predictProba := none }

/-- A classifier whose `predict_proba` always reports 9/10: a test
instantiation of the opaque artifact. -/
def mWithProba : Classifier :=
  { predict := fun _ => 0, predictProba := some (fun _ => 9/10) }

/-- A fixed timestamp used by the concrete witnesses. -/
def t0 : Timestamp :=
  { year := 2025, month := 10, day := 12, hour := 0, minute := 0, second := 0 }

/-- The entry logged by a click with the capability-free classifier: its
Probabilidad is the fabricated fallback. -/
def eNoProba : Entry := (runPredict mNoProba t0 50 15 25).entry

/-- The entry logged by a click with the probability-capable classifier. -/
def eReal : Entry := (runPredict mWithProba t0 50 15 25).entry

/-- A concrete history entry used by the export witnesses. -/
def e0 : Entry :=
  { Fecha := t0, Humedad := 50, Viento := 15, Temperatura := 25,
    Prediccion := "BAJO", Probabilidad := 1/2, Alertas := 0 }

/-- The declared input domain of the three sliders (lines 153-175):
humidity in [20, 100], wind in [0, 40], temperature in [0, 45]. -/
def inDomain (rh wspd temp : ℤ) : Prop :=
  20 ≤ rh ∧ rh ≤ 100 ∧ 0 ≤ wspd ∧ wspd ≤ 40 ∧ 0 ≤ temp ∧ temp ≤ 45

/- ======================= helper lemmas ======================= -/

theorem probOf_none {m : Classifier} (h : m.predictProba = Option.none)
    (x : Features) : probOf m x = 1/2 := by
  simp [probOf, h]

theorem probOf_some {m : Classifier} {f : Features → ℚ}
    (h : m.predictProba = Option.some f) (x : Features) : probOf m x = f x := by
  simp [probOf, h]

theorem round4_half : round4 (1/2) = 1/2 := by
  norm_num [round4, round_eq]

theorem linspace_length (a b : ℚ) (n : ℕ) : (linspace a b n).length = n := by
  unfold linspace
  rw [List.length_map, List.length_range]

theorem sweep1d_of_none {m : Classifier} (h : m.predictProba = Option.none)
    (wspd temp : ℚ) : sweep1d m wspd temp = List.replicate 50 (1/2) := by
  have hlen : (sweep1d m wspd temp).length = 50 := by
    rw [sweep1d, List.length_map, sweep1dCalls, List.length_map, linspace_length]
  have hmem : ∀ b ∈ sweep1d m wspd temp, b = 1/2 := by
    intro b hb
    rw [sweep1d, List.mem_map] at hb
    obtain ⟨x, hx, rfl⟩ := hb
    exact probOf_none h x
  rw [← hlen]
  exact List.eq_replicate_length.mpr hmem

theorem sweep2d_rows_of_none {m : Classifier} (h : m.predictProba = Option.none)
    (wspd : ℚ) : ∀ row ∈ sweep2d m wspd, row = List.replicate 20 (1/2) := by
  intro row hrow
  rw [sweep2d, List.mem_map] at hrow
  obtain ⟨calls, hcalls, rfl⟩ := hrow
  rw [sweep2dCalls, List.mem_map] at hcalls
  obtain ⟨tv, htv, rfl⟩ := hcalls
  have hlen : (((linspace 20 90 20).map (fun hv => (hv, wspd, tv))).map
      (fun x => probOf m x)).length = 20 := by
    rw [List.length_map, List.length_map, linspace_length]
  have hmem : ∀ b ∈ ((linspace 20 90 20).map (fun hv => (hv, wspd, tv))).map
      (fun x => probOf m x), b = 1/2 := by
    intro b hb
    rw [List.mem_map] at hb
    obtain ⟨x, hx, rfl⟩ := hb
    exact probOf_none h x
  rw [← hlen]
  exact List.eq_replicate_length.mpr hmem

theorem sweep2d_of_none {m : Classifier} (h : m.predictProba = Option.none)
    (wspd : ℚ) : sweep2d m wspd = List.replicate 20 (List.replicate 20 (1/2)) := by
  have hlen : (sweep2d m wspd).length = 20 := by
    rw [sweep2d, List.length_map, sweep2dCalls, List.length_map, linspace_length]
  rw [← hlen]
  exact List.eq_replicate_length.mpr (sweep2d_rows_of_none h wspd)

instance (c : Char) : Decidable (charOK c) :=
  inferInstanceAs (Decidable (c ≠ ',' ∧ c ≠ '\n'))

theorem fieldOK_append {s t : List Char} (hs : ∀ c ∈ s, charOK c)
    (ht : ∀ c ∈ t, charOK c) : ∀ c ∈ s ++ t, charOK c := by
  intro c hc
  rcases List.mem_append.mp hc with h | h
  · exact hs c h
  · exact ht c h

theorem fieldOK_cons {a : Char} {t : List Char} (ha : charOK a)
    (ht : ∀ c ∈ t, charOK c) : ∀ c ∈ a :: t, charOK c := by
  intro c hc
  rcases List.mem_cons.mp hc with rfl | h
  · exact ha
  · exact ht c h

theorem digitChar_ok (d : ℕ) : charOK (digitChar d) := by
  unfold digitChar
  split_ifs <;> decide

theorem natCharsGo_ok : ∀ (fuel n : ℕ) (acc : List Char),
    (∀ c ∈ acc, charOK c) → ∀ c ∈ natCharsGo fuel n acc, charOK c := by
  intro fuel
  induction fuel with
  | zero =>
    intro n acc hacc c hc
    simp only [natCharsGo] at hc
    exact hacc c hc
  | succ k ih =>
    intro n acc hacc c hc
    simp only [natCharsGo] at hc
    by_cases hn : n = 0
    · rw [if_pos hn] at hc
      exact hacc c hc
    · rw [if_neg hn] at hc
      refine ih (n / 10) (digitChar (n % 10) :: acc) ?_ c hc
      exact fieldOK_cons (digitChar_ok _) hacc

theorem natChars_ok (n : ℕ) : ∀ c ∈ natChars n, charOK c := by
  intro c hc
  unfold natChars at hc
  by_cases hn : n = 0
  · rw [if_pos hn] at hc
    rw [List.mem_singleton] at hc
    subst hc
    decide
  · rw [if_neg hn] at hc
    exact natCharsGo_ok (n + 1) n [] (by intro c' hc'; cases hc') c hc

theorem padZeros_ok {s : List Char} (w : ℕ) (hs : ∀ c ∈ s, charOK c) :
    ∀ c ∈ padZeros w s, charOK c := by
  unfold padZeros
  refine fieldOK_append ?_ hs
  intro c hc
  rw [List.eq_of_mem_replicate hc]
  decide

theorem renderTimestamp_ok (ts : Timestamp) : ∀ c ∈ renderTimestamp ts, charOK c := by
  intro c hc
  unfold renderTimestamp at hc
  simp only [List.mem_append, List.mem_singleton] at hc
  rcases hc with ((((((((((h | rfl) | h) | rfl) | h) | rfl) | h) | rfl) | h) | rfl) | h)
  · exact padZeros_ok 4 (natChars_ok _) c h
  · decide
  · exact padZeros_ok 2 (natChars_ok _) c h
  · decide
  · exact padZeros_ok 2 (natChars_ok _) c h
  · decide
  · exact padZeros_ok 2 (natChars_ok _) c h
  · decide
  · exact padZeros_ok 2 (natChars_ok _) c h
  · decide
  · exact padZeros_ok 2 (natChars_ok _) c h

theorem sign_ok (b : Prop) [Decidable b] :
    ∀ c ∈ (if b then ['-'] else ([] : List Char)), charOK c := by
  split_ifs <;> decide

theorem renderInt_ok (z : ℤ) : ∀ c ∈ renderInt z, charOK c := by
  intro c hc
  unfold renderInt at hc
  rcases List.mem_append.mp hc with h | h
  · exact sign_ok _ c h
  · exact natChars_ok _ c h

theorem renderProb_ok (q : ℚ) : ∀ c ∈ renderProb q, charOK c := by
  intro c hc
  unfold renderProb at hc
  simp only [List.mem_append, List.mem_singleton] at hc
  rcases hc with ((h | h) | rfl) | h
  · exact sign_ok _ c h
  · exact natChars_ok _ c h
  · decide
  · exact padZeros_ok 4 (natChars_ok _) c h

theorem headerFields_ok : ∀ f ∈ headerFields, ∀ ch ∈ f, charOK ch := by
  decide

theorem renderRow_ok (e : Entry)
    (hp : e.Prediccion = "MODERADO/ALTO" ∨ e.Prediccion = "BAJO") :
    ∀ f ∈ renderRow e, ∀ ch ∈ f, charOK ch := by
  intro f hf
  simp only [renderRow, List.mem_cons, List.not_mem_nil, or_false] at hf
  rcases hf with rfl | rfl | rfl | rfl | rfl | rfl | rfl
  · exact renderTimestamp_ok _
  · exact renderInt_ok _
  · exact renderInt_ok _
  · exact renderInt_ok _
  · rcases hp with h | h <;> rw [h] <;> decide
  · exact renderProb_ok _
  · exact natChars_ok _

theorem intercalate_nil_sep (sep : Char) :
    List.intercalate [sep] ([] : List (List Char)) = [] := by
  simp [List.intercalate]

theorem intercalate_single (sep : Char) (f : List Char) :
    List.intercalate [sep] [f] = f := by
  simp [List.intercalate]

theorem intercalate_cons_cons (sep : Char) (f g : List Char)
    (t : List (List Char)) :
    List.intercalate [sep] (f :: g :: t) = f ++ sep :: List.intercalate [sep] (g :: t) := by
  simp [List.intercalate, List.intersperse_cons_cons]

theorem not_mem_intercalate (sep c : Char) (hc : c ≠ sep) :
    ∀ fs : List (List Char), (∀ f ∈ fs, c ∉ f) → c ∉ List.intercalate [sep] fs := by
  intro fs
  induction fs with
  | nil =>
    intro _
    rw [intercalate_nil_sep]
    exact List.not_mem_nil c
  | cons f t ih =>
    cases t with
    | nil =>
      intro h
      rw [intercalate_single]
      exact h f (by simp)
    | cons g t2 =>
      intro h
      rw [intercalate_cons_cons]
      intro hmem
      rcases List.mem_append.mp hmem with hf | hrest
      · exact h f (by simp) hf
      · rcases List.mem_cons.mp hrest with rfl | hr2
        · exact hc rfl
        · exact ih (fun f2 hf2 => h f2 (List.mem_cons_of_mem _ hf2)) hr2

theorem parseCSV_intercalate (rows : List (List (List Char)))
    (hne : rows ≠ [])
    (hfields : ∀ r ∈ rows, r ≠ [])
    (hok : ∀ r ∈ rows, ∀ f ∈ r, ∀ ch ∈ f, charOK ch) :
    parseCSV (List.intercalate ['\n'] (rows.map (fun r => List.intercalate [','] r)))
      = rows := by
  rw [parseCSV]
  have hx : ∀ l ∈ rows.map (fun r => List.intercalate [','] r), '\n' ∉ l := by
    intro l hl
    rw [List.mem_map] at hl
    obtain ⟨r, hr, rfl⟩ := hl
    refine not_mem_intercalate ',' '\n' (by decide) r ?_
    intro f hf hmem
    exact (hok r hr f hf '\n' hmem).2 rfl
  have hls : rows.map (fun r => List.intercalate [','] r) ≠ [] := by
    intro hmap
    exact hne (List.map_eq_nil_iff.mp hmap)
  rw [List.splitOn_intercalate _ '\n' hx hls, List.map_map]
  have hrow : ∀ r ∈ rows,
      ((fun line => line.splitOn ',') ∘ fun r => List.intercalate [','] r) r = id r := by
    intro r hr
    show (List.intercalate [','] r).splitOn ',' = r
    refine List.splitOn_intercalate r ',' ?_ (hfields r hr)
    intro f hf hmem
    exact (hok r hr f hf ',' hmem).1 rfl
  rw [List.map_congr_left hrow, List.map_id]

/- ======================= claim theorems ======================= -/

/-- C1 (amended): when the loaded classifier lacks `predict_proba`, the
probability query does not return an `Unavailable` marker: line 239
substitutes the numeric fallback 0.5, and that value is both the displayed
probability and the logged Probabilidad. -/
theorem C1_prob_fallback (m : Classifier) (h : m.predictProba = Option.none)
    (x : Features) (now : Timestamp) (rh wspd temp : ℤ) :
    probOf m x = 1/2 ∧
    (runPredict m now rh wspd temp).prob = 1/2 ∧
    (runPredict m now rh wspd temp).entry.Probabilidad = 1/2 := by
  refine ⟨probOf_none h x, probOf_none h _, ?_⟩
  show round4 (probOf m _) = 1/2
  rw [probOf_none h]
  exact round4_half

/-- C1 witness: the fallback evaluated at a concrete capability-free
classifier and a concrete input. -/
theorem C1_prob_fallback_witness :
    mNoProba.predictProba = Option.none ∧
    probOf mNoProba ((50 : ℚ), 15, 25) = 1/2 ∧
    (runPredict mNoProba t0 50 15 25).prob = 1/2 ∧
    (runPredict mNoProba t0 50 15 25).entry.Probabilidad = 1/2 :=
  ⟨rfl, (C1_prob_fallback mNoProba rfl ((50 : ℚ), 15, 25) t0 50 15 25).1,
    (C1_prob_fallback mNoProba rfl ((50 : ℚ), 15, 25) t0 50 15 25).2.1,
    (C1_prob_fallback mNoProba rfl ((50 : ℚ), 15, 25) t0 50 15 25).2.2⟩

/-- C1 counterexample: a classifier with no `predict_proba` capability for
which the probability query returns the fabricated numeric 0.5 instead of
an `Unavailable` marker. -/
theorem C1_counterexample :
    mNoProba.predictProba = Option.none ∧
    probOf mNoProba ((80 : ℚ), 5, 20) = 1/2 :=
  ⟨rfl, rfl⟩

/-- C2: the alert computation of lines 178-184 is a pure function of the
three inputs with fixed thresholds — critical humidity iff humidity < 40,
high temperature iff temperature > 30, strong wind iff wind > 25 — it is
empty iff no threshold is crossed, collects all matching alerts, and on
humidity=35, wind=10, temperature=32 yields exactly the critical-humidity
and high-temperature alerts. -/
theorem C2_computeAlerts (rh wspd temp : ℤ) :
    (Alert.humedadCritica ∈ computeAlerts rh wspd temp ↔ rh < 40) ∧
    (Alert.tempAlta ∈ computeAlerts rh wspd temp ↔ temp > 30) ∧
    (Alert.vientoFuerte ∈ computeAlerts rh wspd temp ↔ wspd > 25) ∧
    (computeAlerts rh wspd temp = [] ↔ (40 ≤ rh ∧ temp ≤ 30 ∧ wspd ≤ 25)) ∧
    computeAlerts 35 10 32 = [Alert.humedadCritica, Alert.tempAlta] := by
  have hconc : computeAlerts 35 10 32 = [Alert.humedadCritica, Alert.tempAlta] := by
    decide
  by_cases h1 : rh < 40 <;> by_cases h2 : temp > 30 <;> by_cases h3 : wspd > 25 <;>
    simp [computeAlerts, humedad_critica, temp_alta, viento_fuerte, h1, h2, h3,
      hconc] <;>
    omega

/-- C4 (amended): `mean_probability` is the plain arithmetic mean of every
logged Probabilidad value; an entry logged while probability was
unavailable contributes its fabricated 0.5 to numerator and denominator,
with no exclusion and no flag. -/
theorem C4_mean_plain (log : List Entry) (now : Timestamp) (rh wspd temp : ℤ) :
    (summary (appendEntry log (runPredict mNoProba now rh wspd temp).entry)).mean_probability
      = ((log.map Entry.Probabilidad).sum + 1/2) / ((log.length : ℚ) + 1) := by
  have hp : (runPredict mNoProba now rh wspd temp).entry.Probabilidad = 1/2 := by
    show round4 (probOf mNoProba _) = 1/2
    rw [probOf_none rfl]; exact round4_half
  simp [summary, appendEntry, hp]

/-- C4 counterexample: a two-entry log mixing one fabricated probability
(0.5, from the capability-free classifier) with one real probability
(0.9); the summary's mean is the plain average 0.7, not the
available-only mean 0.9, and nothing flags the unavailable entry. -/
theorem C4_counterexample :
    mNoProba.predictProba = Option.none ∧
    eNoProba.Probabilidad = 1/2 ∧
    eReal.Probabilidad = 9/10 ∧
    (summary [eNoProba, eReal]).mean_probability = 7/10 ∧
    (7/10 : ℚ) ≠ 9/10 := by
  have h1 : eNoProba.Probabilidad = 1/2 := by
    show round4 (probOf mNoProba _) = 1/2
    rw [probOf_none rfl]; exact round4_half
  have h2 : eReal.Probabilidad = 9/10 := by
    show round4 (probOf mWithProba _) = 9/10
    rw [probOf_some rfl]
    norm_num [round4, round_eq]
  refine ⟨rfl, h1, h2, ?_, by norm_num⟩
  simp [summary, h1, h2]
  norm_num

/-- C5: appending one entry to the history increases the summary count by
exactly one, and clearing the history makes every count zero. -/
theorem C5_append_clear (log : List Entry) (e : Entry) :
    (summary (appendEntry log e)).count = (summary log).count + 1 ∧
    (summary clearHistorial).count = 0 ∧
    (summary clearHistorial).count_low = 0 ∧
    (summary clearHistorial).count_high = 0 := by
  simp [summary, appendEntry, clearHistorial]

/-- C8 (amended): the predict handler performs no domain validation — for
every input, in range or not, it invokes the classifier exactly once with
the unmodified tuple, and the logged entry stores the raw values unclamped;
range enforcement exists only in the slider widgets. -/
theorem C8_no_domain_check (m : Classifier) (now : Timestamp) (rh wspd temp : ℤ) :
    (runPredict m now rh wspd temp).invoked = [((rh : ℚ), (wspd : ℚ), (temp : ℚ))] ∧
    (runPredict m now rh wspd temp).entry.Humedad = rh ∧
    (runPredict m now rh wspd temp).entry.Viento = wspd ∧
    (runPredict m now rh wspd temp).entry.Temperatura = temp :=
  ⟨rfl, rfl, rfl, rfl⟩

/-- C8 counterexample: humidity 150 is outside the declared domain
[20, 100], yet the handler still invokes the model (the invocation list is
the unmodified out-of-domain tuple, not empty), so no rejection happens
before the model call. -/
theorem C8_counterexample :
    ¬ inDomain 150 10 25 ∧
    (runPredict mWithProba t0 150 10 25).invoked = [((150 : ℚ), 10, 25)] ∧
    (runPredict mWithProba t0 150 10 25).invoked ≠ [] := by
  refine ⟨?_, rfl, ?_⟩
  · unfold inDomain
    decide
  · show ([((150 : ℚ), 10, 25)] : List Features) ≠ []
    simp

/-- C9: the derived label is always one of exactly the two strings
MODERADO/ALTO and BAJO; model output 1 maps to MODERADO/ALTO, 0 maps to
BAJO, and the logged label is a function of the model output alone,
independent of the threshold alerts. -/
theorem C9_label_two_valued (pred : ℤ) (m : Classifier) (now : Timestamp)
    (rh wspd temp : ℤ) :
    (labelOf pred = "MODERADO/ALTO" ∨ labelOf pred = "BAJO") ∧
    labelOf 1 = "MODERADO/ALTO" ∧
    labelOf 0 = "BAJO" ∧
    (runPredict m now rh wspd temp).entry.Prediccion =
      labelOf (m.predict ((rh : ℚ), (wspd : ℚ), (temp : ℚ))) := by
  refine ⟨?_, rfl, rfl, rfl⟩
  unfold labelOf
  split_ifs <;> simp

/-- C3: every invocation of the model passes the features as a tuple in the
fixed order (humidity, wind_speed, temperature): the single prediction
builds `[rh, wspd, temp]`, every 1-D sweep call is `(h, wspd, temp)` with h
the swept humidity, every 2-D sweep row fixes a grid temperature tv and
consists of `(h, wspd, tv)` tuples, and the sweep outputs are exactly the
probability queries over those call lists. -/
theorem C3_feature_order (m : Classifier) (now : Timestamp) (rh wspd temp : ℤ)
    (w t : ℚ) :
    (runPredict m now rh wspd temp).invoked = [((rh : ℚ), (wspd : ℚ), (temp : ℚ))] ∧
    (∀ x ∈ sweep1dCalls w t, ∃ h ∈ linspace 20 100 50, x = (h, w, t)) ∧
    (∀ row ∈ sweep2dCalls w, ∃ tv ∈ linspace 10 40 20,
        row = (linspace 20 90 20).map (fun hv => (hv, w, tv))) ∧
    sweep1d m w t = (sweep1dCalls w t).map (fun x => probOf m x) ∧
    sweep2d m w = (sweep2dCalls w).map (fun row => row.map (fun x => probOf m x)) := by
  refine ⟨rfl, ?_, ?_, rfl, rfl⟩
  · intro x hx
    rw [sweep1dCalls, List.mem_map] at hx
    obtain ⟨h, hh, rfl⟩ := hx
    exact ⟨h, hh, rfl⟩
  · intro row hrow
    rw [sweep2dCalls, List.mem_map] at hrow
    obtain ⟨tv, htv, rfl⟩ := hrow
    exact ⟨tv, htv, rfl⟩

/-- C7 (amended): the sensitivity sweeps neither read nor write the
prediction history (the Análisis tab returns the session state unchanged),
and they never raise; but when the classifier lacks probability support
every cell of both grids is filled with the fabricated numeric 0.5 rather
than left as a hole. -/
theorem C7_sweep_pure (m : Classifier) (wspd temp : ℚ) (s : AppState) :
    (runAnalysisTab m wspd temp s).2 = s ∧
    (m.predictProba = Option.none →
      sweep1d m wspd temp = List.replicate 50 (1/2) ∧
      ∀ row ∈ sweep2d m wspd, row = List.replicate 20 (1/2)) :=
  ⟨rfl, fun h => ⟨sweep1d_of_none h wspd temp, sweep2d_rows_of_none h wspd⟩⟩

/-- C7 counterexample: with the capability-free classifier the sweep grids
contain the fabricated numeric value 0.5 in every cell, not holes — the
claim's "Unavailable tolerated as a hole in the grid" is false of the
code. -/
theorem C7_counterexample :
    mNoProba.predictProba = Option.none ∧
    sweep1d mNoProba 15 25 = List.replicate 50 (1/2) ∧
    sweep2d mNoProba 15 = List.replicate 20 (List.replicate 20 (1/2)) :=
  ⟨rfl, sweep1d_of_none (show mNoProba.predictProba = Option.none from rfl) 15 25,
    sweep2d_of_none (show mNoProba.predictProba = Option.none from rfl) 15⟩

/-- C10: the logged Probabilidad is `round(prob, 4)`, the raw probability
rounded to four decimal places; for a raw probability in [0, 1] the stored
value is also in [0, 1] and differs from the displayed raw probability by
at most 0.00005. -/
theorem C10_round4_stored (m : Classifier) (now : Timestamp) (rh wspd temp : ℤ)
    (p : ℚ) (h0 : 0 ≤ p) (h1 : p ≤ 1) :
    (runPredict m now rh wspd temp).entry.Probabilidad
        = round4 ((runPredict m now rh wspd temp).prob) ∧
    0 ≤ round4 p ∧ round4 p ≤ 1 ∧ |round4 p - p| ≤ 1/20000 := by
  refine ⟨rfl, ?_, ?_, ?_⟩
  · rw [round4]
    apply div_nonneg _ (by norm_num)
    have hz : (0 : ℤ) ≤ round (p * 10000) := by
      rw [round_eq]
      apply Int.le_floor.mpr
      push_cast
      nlinarith
    exact_mod_cast hz
  · rw [round4, div_le_one (by norm_num)]
    have hz : round (p * 10000) ≤ 10000 := by
      rw [round_eq]
      calc ⌊p * 10000 + 1/2⌋ ≤ ⌊(10000 : ℚ) + 1/2⌋ :=
            Int.floor_le_floor (by nlinarith)
        _ = 10000 := by norm_num
    exact_mod_cast hz
  · have hr := abs_sub_round (p * 10000)
    rw [abs_le] at hr
    rw [round4, abs_le]
    constructor <;> linarith [hr.1, hr.2]

/-- C10 witness: the rounding bounds at the concrete raw probability 0.37
and the stored-field equation at a concrete click. -/
theorem C10_round4_stored_witness :
    ((0 : ℚ) ≤ 37/100 ∧ (37/100 : ℚ) ≤ 1) ∧
    (runPredict mWithProba t0 50 15 25).entry.Probabilidad
        = round4 ((runPredict mWithProba t0 50 15 25).prob) ∧
    0 ≤ round4 (37/100) ∧ round4 (37/100) ≤ 1 ∧
    |round4 (37/100) - 37/100| ≤ 1/20000 :=
  ⟨⟨by norm_num, by norm_num⟩,
    (C10_round4_stored mWithProba t0 50 15 25 (37/100) (by norm_num) (by norm_num)).1,
    (C10_round4_stored mWithProba t0 50 15 25 (37/100) (by norm_num) (by norm_num)).2.1,
    (C10_round4_stored mWithProba t0 50 15 25 (37/100) (by norm_num) (by norm_num)).2.2.1,
    (C10_round4_stored mWithProba t0 50 15 25 (37/100) (by norm_num) (by norm_num)).2.2.2⟩

/-- C6: exporting the history and parsing the produced delimited table back
yields the header row first — in the stable column order Fecha, Humedad,
Viento, Temperatura, Predicción, Probabilidad, Alertas — followed by
exactly one row per in-memory entry whose fields are the declared-precision
renderings of that entry's stored values.  (Every entry the app logs has
one of the two label strings, the hypothesis.) -/
theorem C6_export_roundtrip (log : List Entry)
    (hpred : ∀ e ∈ log, e.Prediccion = "MODERADO/ALTO" ∨ e.Prediccion = "BAJO") :
    parseCSV (exportCSV log) = headerFields :: log.map renderRow ∧
    (parseCSV (exportCSV log)).length = log.length + 1 ∧
    (parseCSV (exportCSV log)).head? = some [String.toList "Fecha",
      String.toList "Humedad", String.toList "Viento", String.toList "Temperatura",
      String.toList "Predicción", String.toList "Probabilidad",
      String.toList "Alertas"] := by
  have hmain : parseCSV (exportCSV log) = headerFields :: log.map renderRow := by
    rw [exportCSV]
    refine parseCSV_intercalate (headerFields :: log.map renderRow) (by simp) ?_ ?_
    · intro r hr
      rcases List.mem_cons.mp hr with rfl | hr2
      · simp [headerFields]
      · rw [List.mem_map] at hr2
        obtain ⟨e, he, rfl⟩ := hr2
        simp [renderRow]
    · intro r hr
      rcases List.mem_cons.mp hr with rfl | hr2
      · exact headerFields_ok
      · rw [List.mem_map] at hr2
        obtain ⟨e, he, rfl⟩ := hr2
        exact renderRow_ok e (hpred e he)
  refine ⟨hmain, ?_, ?_⟩
  · rw [hmain]
    simp
  · rw [hmain]
    rfl

/-- C6 witness: the round trip at a concrete one-entry history. -/
theorem C6_export_roundtrip_witness :
    (∀ e ∈ [e0], e.Prediccion = "MODERADO/ALTO" ∨ e.Prediccion = "BAJO") ∧
    parseCSV (exportCSV [e0]) = headerFields :: [e0].map renderRow ∧
    (parseCSV (exportCSV [e0])).length = [e0].length + 1 :=
  ⟨fun e he => by rw [List.mem_singleton] at he; subst he; right; rfl,
    (C6_export_roundtrip [e0]
      (fun e he => by rw [List.mem_singleton] at he; subst he; right; rfl)).1,
    (C6_export_roundtrip [e0]
      (fun e he => by rw [List.mem_singleton] at he; subst he; right; rfl)).2.1⟩

end Incendios
